import Mathlib

/-!
Shallow embedding of `src/aiagent.py` (`SpotifyDataAgent`): the adaptive
collection loop, its statistics counters, data processing, validation,
storage, quality assessment and adaptive delay adjustment.

External collaborators are modelled as parameters:
the token obtained by `get_token` is an `Option String` (the Python method
returns `None` on any exception), and the per-iteration fetch result is a
stream `Nat → FetchOutcome` consumed by the loop.

Python floats are modelled as rationals (`ℚ`); the guard constants 0.5, 0.8,
0.9 and the adjustment factors 2 and 0.8 are taken exact.  No claim here
depends on binary rounding of these constants.

`time.sleep`, logging and the final report change none of the modelled state,
so `respectful_delay` and `generate_final_report` are omitted from the state
transitions.
-/

/-- One element of a raw item's `"artists"` list.  Only its `"name"` key is
relevant (`a["artists"][0]["name"]`); the key may be absent. -/
structure RawArtist where
  name : Option String
deriving DecidableEq, Repr

/-- One raw album item of `albums.items` in the JSON response.  Each of the
keys `"name"`, `"artists"`, `"id"` may be absent (accessing an absent key
raises `KeyError` in Python). -/
structure RawItem where
  name : Option String
  artists : Option (List RawArtist)
  id : Option String
deriving DecidableEq, Repr

/-- The `"albums"` object of the JSON response; its `"items"` key may be
absent (`.get("items", [])`). -/
structure AlbumsObj where
  items : Option (List RawItem)
deriving DecidableEq, Repr

/-- A JSON response of the new-releases endpoint; its `"albums"` key may be
absent (`.get("albums", {})`).  Only the `albums.items` path is ever read by
the agent, so no other key is modelled.  (Python's `if data:` truthiness test
on the response dict is modelled as an `Option.isSome` test on the fetch
result; a falsy response is the empty dict, whose processing would store
nothing and leave the state unchanged, so the two readings agree on every
modelled field.) -/
structure SpotifyResponse where
  albums : Option AlbumsObj
deriving DecidableEq, Repr

/-- A processed record, the dict
`{"name": ..., "artist": ..., "id": ...}` built by `process_data`.  Fields
are `Option`s so that `validate_data`'s membership tests (`"name" in d`)
are expressible on arbitrary record dicts over these keys. -/
structure Record where
  name : Option String
  artist : Option String
  id : Option String
deriving DecidableEq, Repr

/-- The mutable state of a `SpotifyDataAgent`: `data_store`,
`collection_stats` (its counters and `quality_scores`), `delay_multiplier`
and the configured `max_requests`.  `start_time`, credentials and
`base_delay` influence no modelled transition and are omitted. -/
structure AgentState where
  data_store : List Record
  total_requests : Nat
  successful_requests : Nat
  failed_requests : Nat
  quality_scores : List ℚ
  delay_multiplier : ℚ
  max_requests : Nat
deriving DecidableEq, Repr

/-- The state set up by `__init__`: empty store, zero counters, no quality
scores, `delay_multiplier = 1.0`. -/
def initState (max_requests : Nat) : AgentState :=
  { data_store := []
    total_requests := 0
    successful_requests := 0
    failed_requests := 0
    quality_scores := []
    delay_multiplier := 1
    max_requests := max_requests }

/-- Outcome of one `requests.get` call inside `collect_batch`: a 200
response whose body parses as JSON, a 200 response whose body fails to
parse (`response.json()` raises inside the `try` block), a non-200 status,
or an exception raised by `requests.get` itself. -/
inductive FetchOutcome
  | success (resp : SpotifyResponse)
  | jsonError
  | httpError (status : Nat)
  | transportError
deriving DecidableEq, Repr

/-- `collect_batch`: increments `total_requests` (done before the `try`
block, hence in every branch).  On status 200 it increments
`successful_requests` and then calls `response.json()` still inside the
`try`: if the body parses, the payload is returned; a parse failure raises
into the `except` handler, which additionally increments `failed_requests`
and returns `None` — so that branch bumps both success and failure
counters.  A non-200 status, or an exception from `requests.get` itself,
increments only `failed_requests`. -/
def collect_batch (s : AgentState) (o : FetchOutcome) :
    AgentState × Option SpotifyResponse :=
  match o with
  | .success resp =>
      ({ s with total_requests := s.total_requests + 1
                successful_requests := s.successful_requests + 1 },
       some resp)
  | .jsonError =>
      ({ s with total_requests := s.total_requests + 1
                successful_requests := s.successful_requests + 1
                failed_requests := s.failed_requests + 1 },
       none)
  | .httpError _ =>
      ({ s with total_requests := s.total_requests + 1
                failed_requests := s.failed_requests + 1 },
       none)
  | .transportError =>
      ({ s with total_requests := s.total_requests + 1
                failed_requests := s.failed_requests + 1 },
       none)

/-- `data.get("albums", {}).get("items", [])`. -/
def albumsItems (data : SpotifyResponse) : List RawItem :=
  match data.albums with
  | none => []
  | some obj => obj.items.getD []

/-- One element of `process_data`'s comprehension:
`{"name": a["name"], "artist": a["artists"][0]["name"], "id": a["id"]}`.
Any absent key (or empty `artists` list) raises `KeyError`/`IndexError`,
modelled as `none`. -/
def processItem (a : RawItem) : Option Record :=
  match a.name with
  | none => none
  | some n =>
    match a.artists with
    | none => none
    | some arts =>
      match arts with
      | [] => none
      | first :: _ =>
        match first.name with
        | none => none
        | some art =>
          match a.id with
          | none => none
          | some i => some { name := some n, artist := some art, id := some i }

/-- The list comprehension of `process_data` over `albums`: produces the
record list, but fails as a whole (`none`) as soon as any single item's
construction raises. -/
def mapProcess : List RawItem → Option (List Record)
  | [] => some []
  | a :: rest =>
      match processItem a with
      | none => none
      | some r =>
          match mapProcess rest with
          | none => none
          | some rs => some (r :: rs)

/-- `process_data`: extract `albums.items` (defaulting to `[]`) and run the
comprehension.  `none` models an uncaught `KeyError`/`IndexError`. -/
def process_data (data : SpotifyResponse) : Option (List Record) :=
  mapProcess (albumsItems data)

/-- `"name" in d and "artist" in d` for one record dict. -/
def hasRequiredFields (d : Record) : Bool :=
  d.name.isSome && d.artist.isSome

/-- `validate_data`: `all(...)` over the batch. -/
def validate_data (data : List Record) : Bool :=
  data.all hasRequiredFields

/-- `store_data`: `self.data_store.extend(data)`. -/
def store_data (s : AgentState) (data : List Record) : AgentState :=
  { s with data_store := s.data_store ++ data }

/-- Lines 97–98 of `run_collection`:
`if self.validate_data(processed): self.store_data(processed)`. -/
def storeStep (s : AgentState) (processed : List Record) : AgentState :=
  if validate_data processed then store_data s processed else s

/-- `get_success_rate`: `successful / total` if `total > 0` else `0`.
Python's float division is modelled as the exact rational quotient; it is
written `Rat.divInt` (equal to `/` on `ℚ`, see `get_success_rate_eq_div`)
so that concrete states evaluate by `decide`. -/
def get_success_rate (s : AgentState) : ℚ :=
  if s.total_requests > 0 then
    Rat.divInt s.successful_requests s.total_requests
  else 0

/-- `assess_data_quality`: on an empty store returns `0` (and, notably,
appends nothing); otherwise computes the fraction of stored records with
both required fields, appends it to `quality_scores`, and returns it. -/
def assess_data_quality (s : AgentState) : ℚ × AgentState :=
  if s.data_store.isEmpty then (0, s)
  else
    let score : ℚ :=
      Rat.divInt (s.data_store.filter hasRequiredFields).length
        s.data_store.length
    (score, { s with quality_scores := s.quality_scores ++ [score] })

/-- `adjust_strategy`: recomputes the success rate; below 0.5 doubles
`delay_multiplier`, above 0.9 multiplies it by 0.8, otherwise leaves it.
The constants 0.5, 0.9, 0.8 are written `Rat.divInt 1 2`, `Rat.divInt 9 10`,
`Rat.divInt 4 5`. -/
def adjust_strategy (s : AgentState) : AgentState :=
  if get_success_rate s < Rat.divInt 1 2 then
    { s with delay_multiplier := s.delay_multiplier * 2 }
  else if Rat.divInt 9 10 < get_success_rate s then
    { s with delay_multiplier := s.delay_multiplier * Rat.divInt 4 5 }
  else s

/-- `assess_performance`: reads the success rate, runs
`assess_data_quality` (with its append side effect), then calls
`adjust_strategy` only when the rate is below 0.8. -/
def assess_performance (s : AgentState) : AgentState :=
  if get_success_rate s < Rat.divInt 4 5 then
    adjust_strategy (assess_data_quality s).2
  else (assess_data_quality s).2

/-- `collection_complete`: `total_requests >= max_requests`. -/
def collection_complete (s : AgentState) : Bool :=
  s.max_requests ≤ s.total_requests

/-- One iteration of the `while` body of `run_collection`.  `Except.error`
carries the agent state at the point where an exception escapes the body:
the only possible one is the `KeyError`/`IndexError` raised by
`process_data` on a malformed successful payload, which `run_collection`
does not catch. -/
def loopBody (s : AgentState) (o : FetchOutcome) : Except AgentState AgentState :=
  let r := collect_batch s o
  match r.2 with
  | none => .ok (assess_performance r.1)
  | some d =>
      match process_data d with
      | none => .error r.1
      | some processed => .ok (assess_performance (storeStep r.1 processed))

/-- The `while not self.collection_complete()` loop, with explicit fuel.
Each completed iteration increments `total_requests` by exactly one, so
`max_requests - total_requests` bounds the number of remaining iterations;
`runLoop` below supplies exactly that fuel, which makes the fuel-0 clause
(`.ok s`) coincide with the loop's normal exit. -/
def runLoopAux : Nat → AgentState → (Nat → FetchOutcome) → Nat →
    Except AgentState AgentState
  | 0, s, _, _ => .ok s
  | fuel + 1, s, out, k =>
      if collection_complete s then .ok s
      else
        match loopBody s (out k) with
        | .error e => .error e
        | .ok s' => runLoopAux fuel s' out (k + 1)

/-- The collection loop of `run_collection`, started at iteration `k`. -/
def runLoop (s : AgentState) (out : Nat → FetchOutcome) (k : Nat) :
    Except AgentState AgentState :=
  runLoopAux (s.max_requests - s.total_requests) s out k

/-- How a run of `run_collection` ends: aborted before the loop because no
token was obtained, completed normally, or terminated by an uncaught
exception inside the loop body.  Each constructor carries the final agent
state. -/
inductive RunResult
  | aborted (final : AgentState)
  | complete (final : AgentState)
  | crashed (final : AgentState)
deriving DecidableEq, Repr

/-- Whether a run ended in the `complete` outcome. -/
def RunResult.isCompleteRun : RunResult → Bool
  | .complete _ => true
  | _ => false

/-- `run_collection`: obtain a token (modelled as a parameter; `none` is
`get_token` returning `None`, and Python's `if not token` also aborts on an
empty token string); without one, return before the loop.  Otherwise run
the loop over the stream of fetch outcomes. -/
def run_collection (s : AgentState) (token : Option String)
    (out : Nat → FetchOutcome) : RunResult :=
  match token with
  | none => .aborted s
  | some t =>
      if t.isEmpty then .aborted s
      else
        match runLoop s out 0 with
        | .ok s' => .complete s'
        | .error e => .crashed e

/-- A fetch outcome whose processing cannot raise: either the fetch fails
(so `process_data` is never called) or the payload's items all decompose. -/
def processable : FetchOutcome → Prop
  | .success resp => (process_data resp).isSome = true
  | _ => True

/-- A raw item carrying none of the decomposable sub-fields. -/
def badItem : RawItem :=
  { name := none, artists := some [], id := none }

/-- A successful payload whose single item is malformed: processing it
raises in the Python code. -/
def badResp : SpotifyResponse :=
  { albums := some { items := some [badItem] } }

/-- A fully-formed raw item. -/
def goodItem : RawItem :=
  { name := some "Album", artists := some [{ name := some "Artist" }],
    id := some "id1" }

/-- A successful payload with one fully-formed item. -/
def goodResp : SpotifyResponse :=
  { albums := some { items := some [goodItem] } }

/-- The record `process_data` builds from `goodItem`. -/
def goodRec : Record :=
  { name := some "Album", artist := some "Artist", id := some "id1" }

/-- A record dict missing the `artist` key. -/
def badRec : Record :=
  { name := some "x", artist := none, id := none }

/-! ### Projection lemmas for the state transformers -/

lemma collect_total (s : AgentState) (o : FetchOutcome) :
    (collect_batch s o).1.total_requests = s.total_requests + 1 := by
  cases o <;> rfl

lemma collect_succ_failed (s : AgentState) (o : FetchOutcome)
    (ho : o ≠ .jsonError) :
    (collect_batch s o).1.successful_requests + (collect_batch s o).1.failed_requests
      = s.successful_requests + s.failed_requests + 1 := by
  cases o with
  | success resp => simp [collect_batch]; omega
  | jsonError => exact absurd rfl ho
  | httpError st => simp [collect_batch]; omega
  | transportError => simp [collect_batch]; omega

lemma collect_jsonError_succ_failed (s : AgentState) :
    (collect_batch s .jsonError).1.successful_requests
        + (collect_batch s .jsonError).1.failed_requests
      = s.successful_requests + s.failed_requests + 2 := by
  simp [collect_batch]
  omega

lemma collect_store (s : AgentState) (o : FetchOutcome) :
    (collect_batch s o).1.data_store = s.data_store := by
  cases o <;> rfl

lemma collect_delay (s : AgentState) (o : FetchOutcome) :
    (collect_batch s o).1.delay_multiplier = s.delay_multiplier := by
  cases o <;> rfl

lemma collect_max (s : AgentState) (o : FetchOutcome) :
    (collect_batch s o).1.max_requests = s.max_requests := by
  cases o <;> rfl

lemma collect_success_fst (s : AgentState) (resp : SpotifyResponse) :
    (collect_batch s (.success resp)).1
      = { s with total_requests := s.total_requests + 1
                 successful_requests := s.successful_requests + 1 } := rfl

lemma adq_total (s : AgentState) :
    (assess_data_quality s).2.total_requests = s.total_requests := by
  unfold assess_data_quality; split <;> rfl

lemma adq_succ (s : AgentState) :
    (assess_data_quality s).2.successful_requests = s.successful_requests := by
  unfold assess_data_quality; split <;> rfl

lemma adq_failed (s : AgentState) :
    (assess_data_quality s).2.failed_requests = s.failed_requests := by
  unfold assess_data_quality; split <;> rfl

lemma adq_store (s : AgentState) :
    (assess_data_quality s).2.data_store = s.data_store := by
  unfold assess_data_quality; split <;> rfl

lemma adq_delay (s : AgentState) :
    (assess_data_quality s).2.delay_multiplier = s.delay_multiplier := by
  unfold assess_data_quality; split <;> rfl

lemma adq_max (s : AgentState) :
    (assess_data_quality s).2.max_requests = s.max_requests := by
  unfold assess_data_quality; split <;> rfl

lemma adq_empty {s : AgentState} (h : s.data_store.isEmpty = true) :
    assess_data_quality s = (0, s) := by
  unfold assess_data_quality; simp [h]

lemma get_success_rate_eq_div (s : AgentState) :
    get_success_rate s
      = if s.total_requests > 0 then
          (s.successful_requests : ℚ) / (s.total_requests : ℚ)
        else 0 := by
  unfold get_success_rate
  split
  · rw [Rat.divInt_eq_div]
    push_cast
    rfl
  · rfl

lemma adq_nonempty_fst {s : AgentState} (h : s.data_store.isEmpty = false) :
    (assess_data_quality s).1
      = Rat.divInt (s.data_store.filter hasRequiredFields).length
          s.data_store.length := by
  unfold assess_data_quality; simp [h]

lemma adq_nonempty_scores {s : AgentState} (h : s.data_store.isEmpty = false) :
    (assess_data_quality s).2.quality_scores
      = s.quality_scores ++ [(assess_data_quality s).1] := by
  unfold assess_data_quality; simp [h]

lemma rate_adq (s : AgentState) :
    get_success_rate (assess_data_quality s).2 = get_success_rate s := by
  unfold get_success_rate
  rw [adq_total, adq_succ]

lemma adjust_total (s : AgentState) :
    (adjust_strategy s).total_requests = s.total_requests := by
  unfold adjust_strategy
  split
  · rfl
  · split <;> rfl

lemma adjust_succ (s : AgentState) :
    (adjust_strategy s).successful_requests = s.successful_requests := by
  unfold adjust_strategy
  split
  · rfl
  · split <;> rfl

lemma adjust_failed (s : AgentState) :
    (adjust_strategy s).failed_requests = s.failed_requests := by
  unfold adjust_strategy
  split
  · rfl
  · split <;> rfl

lemma adjust_store (s : AgentState) :
    (adjust_strategy s).data_store = s.data_store := by
  unfold adjust_strategy
  split
  · rfl
  · split <;> rfl

lemma adjust_max (s : AgentState) :
    (adjust_strategy s).max_requests = s.max_requests := by
  unfold adjust_strategy
  split
  · rfl
  · split <;> rfl

lemma adjust_lt_half {s : AgentState}
    (h : get_success_rate s < Rat.divInt 1 2) :
    (adjust_strategy s).delay_multiplier = s.delay_multiplier * 2 := by
  unfold adjust_strategy
  rw [if_pos h]

lemma adjust_mid {s : AgentState}
    (h1 : ¬ get_success_rate s < Rat.divInt 1 2)
    (h2 : ¬ Rat.divInt 9 10 < get_success_rate s) :
    adjust_strategy s = s := by
  unfold adjust_strategy
  rw [if_neg h1, if_neg h2]

lemma adjust_under_guard {s : AgentState}
    (h : get_success_rate s < Rat.divInt 4 5) :
    adjust_strategy s = s ∨
      (adjust_strategy s).delay_multiplier = s.delay_multiplier * 2 := by
  by_cases h1 : get_success_rate s < Rat.divInt 1 2
  · exact Or.inr (adjust_lt_half h1)
  · refine Or.inl (adjust_mid h1 ?_)
    intro h2
    have hc : Rat.divInt 4 5 ≤ Rat.divInt 9 10 := by decide
    linarith

lemma ap_total (s : AgentState) :
    (assess_performance s).total_requests = s.total_requests := by
  unfold assess_performance
  split
  · rw [adjust_total, adq_total]
  · rw [adq_total]

lemma ap_succ (s : AgentState) :
    (assess_performance s).successful_requests = s.successful_requests := by
  unfold assess_performance
  split
  · rw [adjust_succ, adq_succ]
  · rw [adq_succ]

lemma ap_failed (s : AgentState) :
    (assess_performance s).failed_requests = s.failed_requests := by
  unfold assess_performance
  split
  · rw [adjust_failed, adq_failed]
  · rw [adq_failed]

lemma ap_store (s : AgentState) :
    (assess_performance s).data_store = s.data_store := by
  unfold assess_performance
  split
  · rw [adjust_store, adq_store]
  · rw [adq_store]

lemma ap_max (s : AgentState) :
    (assess_performance s).max_requests = s.max_requests := by
  unfold assess_performance
  split
  · rw [adjust_max, adq_max]
  · rw [adq_max]

lemma ap_delay_mono {s : AgentState} (h0 : 0 ≤ s.delay_multiplier) :
    s.delay_multiplier ≤ (assess_performance s).delay_multiplier := by
  unfold assess_performance
  split
  · rcases adjust_under_guard (s := (assess_data_quality s).2)
        (by rw [rate_adq]; assumption) with heq | hdb
    · rw [heq, adq_delay]
    · rw [hdb, adq_delay]
      linarith
  · rw [adq_delay]

lemma storeStep_total (s : AgentState) (l : List Record) :
    (storeStep s l).total_requests = s.total_requests := by
  unfold storeStep store_data; split <;> rfl

lemma storeStep_succ (s : AgentState) (l : List Record) :
    (storeStep s l).successful_requests = s.successful_requests := by
  unfold storeStep store_data; split <;> rfl

lemma storeStep_failed (s : AgentState) (l : List Record) :
    (storeStep s l).failed_requests = s.failed_requests := by
  unfold storeStep store_data; split <;> rfl

lemma storeStep_delay (s : AgentState) (l : List Record) :
    (storeStep s l).delay_multiplier = s.delay_multiplier := by
  unfold storeStep store_data; split <;> rfl

lemma storeStep_max (s : AgentState) (l : List Record) :
    (storeStep s l).max_requests = s.max_requests := by
  unfold storeStep store_data; split <;> rfl

lemma storeStep_invalid {l : List Record} (s : AgentState)
    (h : validate_data l = false) : storeStep s l = s := by
  unfold storeStep; simp [h]

/-! ### Facts about one loop iteration -/

lemma loopBody_ok_total_max {s : AgentState} {o : FetchOutcome}
    {s' : AgentState} (h : loopBody s o = .ok s') :
    s'.total_requests = s.total_requests + 1 ∧
    s'.max_requests = s.max_requests := by
  unfold loopBody at h
  cases o with
  | success resp =>
      simp only [collect_batch] at h
      cases hp : process_data resp with
      | none => rw [hp] at h; exact absurd h (by simp)
      | some processed =>
          rw [hp] at h
          simp only [Except.ok.injEq] at h
          subst h
          exact ⟨by rw [ap_total, storeStep_total],
            by rw [ap_max, storeStep_max]⟩
  | jsonError =>
      simp only [collect_batch, Except.ok.injEq] at h
      subst h
      exact ⟨by rw [ap_total], by rw [ap_max]⟩
  | httpError st =>
      simp only [collect_batch, Except.ok.injEq] at h
      subst h
      exact ⟨by rw [ap_total], by rw [ap_max]⟩
  | transportError =>
      simp only [collect_batch, Except.ok.injEq] at h
      subst h
      exact ⟨by rw [ap_total], by rw [ap_max]⟩

lemma loopBody_ok_succ_failed {s : AgentState} {o : FetchOutcome}
    {s' : AgentState} (ho : o ≠ .jsonError) (h : loopBody s o = .ok s') :
    s'.successful_requests + s'.failed_requests
      = s.successful_requests + s.failed_requests + 1 := by
  unfold loopBody at h
  cases o with
  | success resp =>
      simp only [collect_batch] at h
      cases hp : process_data resp with
      | none => rw [hp] at h; exact absurd h (by simp)
      | some processed =>
          rw [hp] at h
          simp only [Except.ok.injEq] at h
          subst h
          rw [ap_succ, ap_failed, storeStep_succ, storeStep_failed]
          dsimp only
          omega
  | jsonError => exact absurd rfl ho
  | httpError st =>
      simp only [collect_batch, Except.ok.injEq] at h
      subst h
      rw [ap_succ, ap_failed]
      dsimp only
      omega
  | transportError =>
      simp only [collect_batch, Except.ok.injEq] at h
      subst h
      rw [ap_succ, ap_failed]
      dsimp only
      omega

lemma loopBody_jsonError_succ_failed {s : AgentState} {s' : AgentState}
    (h : loopBody s .jsonError = .ok s') :
    s'.successful_requests + s'.failed_requests
      = s.successful_requests + s.failed_requests + 2 := by
  unfold loopBody at h
  simp only [collect_batch, Except.ok.injEq] at h
  subst h
  rw [ap_succ, ap_failed]
  dsimp only
  omega

lemma loopBody_ok_delay {s : AgentState} {o : FetchOutcome} {s' : AgentState}
    (h0 : 0 ≤ s.delay_multiplier) (h : loopBody s o = .ok s') :
    s.delay_multiplier ≤ s'.delay_multiplier := by
  unfold loopBody at h
  cases o with
  | success resp =>
      simp only [collect_batch] at h
      cases hp : process_data resp with
      | none => rw [hp] at h; exact absurd h (by simp)
      | some processed =>
          rw [hp] at h
          simp only [Except.ok.injEq] at h
          subst h
          have h1 := ap_delay_mono
            (s := storeStep
              { s with total_requests := s.total_requests + 1
                       successful_requests := s.successful_requests + 1 }
              processed)
            (by rw [storeStep_delay]; exact h0)
          rw [storeStep_delay] at h1
          exact h1
  | jsonError =>
      simp only [collect_batch, Except.ok.injEq] at h
      subst h
      exact ap_delay_mono h0
  | httpError st =>
      simp only [collect_batch, Except.ok.injEq] at h
      subst h
      exact ap_delay_mono h0
  | transportError =>
      simp only [collect_batch, Except.ok.injEq] at h
      subst h
      exact ap_delay_mono h0

lemma processItem_complete {a : RawItem} {r : Record}
    (h : processItem a = some r) : hasRequiredFields r = true := by
  unfold processItem at h
  repeat' split at h
  all_goals first
    | exact Option.noConfusion h
    | (simp only [Option.some.injEq] at h
       subst h
       simp [hasRequiredFields])

lemma mapProcess_complete :
    ∀ {l : List RawItem} {batch : List Record}, mapProcess l = some batch →
      ∀ r ∈ batch, hasRequiredFields r = true := by
  intro l
  induction l with
  | nil =>
      intro batch h r hr
      simp only [mapProcess, Option.some.injEq] at h
      subst h
      cases hr
  | cons a rest ih =>
      intro batch h r hr
      unfold mapProcess at h
      cases hp : processItem a with
      | none => rw [hp] at h; cases h
      | some r0 =>
          rw [hp] at h
          cases hm : mapProcess rest with
          | none => rw [hm] at h; cases h
          | some rs =>
              rw [hm] at h
              simp only [Option.some.injEq] at h
              subst h
              rcases List.mem_cons.mp hr with hreq | hmem
              · exact hreq ▸ processItem_complete hp
              · exact ih hm r hmem

lemma process_data_valid {resp : SpotifyResponse} {batch : List Record}
    (h : process_data resp = some batch) : validate_data batch = true := by
  unfold validate_data
  rw [List.all_eq_true]
  intro r hr
  exact mapProcess_complete h r hr

lemma loopBody_ok_store_complete {s : AgentState} {o : FetchOutcome}
    {s' : AgentState}
    (hinv : ∀ r ∈ s.data_store, hasRequiredFields r = true)
    (h : loopBody s o = .ok s') :
    ∀ r ∈ s'.data_store, hasRequiredFields r = true := by
  unfold loopBody at h
  cases o with
  | success resp =>
      simp only [collect_batch] at h
      cases hp : process_data resp with
      | none => rw [hp] at h; exact absurd h (by simp)
      | some processed =>
          rw [hp] at h
          simp only [Except.ok.injEq] at h
          subst h
          intro r hr
          rw [ap_store] at hr
          unfold storeStep store_data at hr
          rw [if_pos (process_data_valid hp)] at hr
          simp only [List.mem_append] at hr
          rcases hr with hr | hr
          · exact hinv r hr
          · exact mapProcess_complete hp r hr
  | jsonError =>
      simp only [collect_batch, Except.ok.injEq] at h
      subst h
      intro r hr
      rw [ap_store] at hr
      exact hinv r hr
  | httpError st =>
      simp only [collect_batch, Except.ok.injEq] at h
      subst h
      intro r hr
      rw [ap_store] at hr
      exact hinv r hr
  | transportError =>
      simp only [collect_batch, Except.ok.injEq] at h
      subst h
      intro r hr
      rw [ap_store] at hr
      exact hinv r hr

/-! ### Facts about the whole loop -/

lemma runLoopAux_preserve (P : AgentState → Prop)
    (hP : ∀ s o s', P s → loopBody s o = .ok s' → P s') :
    ∀ (fuel : Nat) (s : AgentState) (out : Nat → FetchOutcome) (k : Nat)
      (s' : AgentState),
      P s → runLoopAux fuel s out k = .ok s' → P s' := by
  intro fuel
  induction fuel with
  | zero =>
      intro s out k s' hs h
      unfold runLoopAux at h
      simp only [Except.ok.injEq] at h
      subst h
      exact hs
  | succ n ih =>
      intro s out k s' hs h
      unfold runLoopAux at h
      by_cases hc : collection_complete s = true
      · rw [if_pos hc] at h
        simp only [Except.ok.injEq] at h
        subst h
        exact hs
      · rw [if_neg hc] at h
        cases hb : loopBody s (out k) with
        | error e => rw [hb] at h; exact Except.noConfusion h
        | ok s2 =>
            rw [hb] at h
            exact ih s2 out (k + 1) s' (hP s (out k) s2 hs hb) h

lemma runLoopAux_preserve_stream (P : AgentState → Prop)
    (out : Nat → FetchOutcome)
    (hP : ∀ s k s', P s → loopBody s (out k) = .ok s' → P s') :
    ∀ (fuel : Nat) (s : AgentState) (k : Nat) (s' : AgentState),
      P s → runLoopAux fuel s out k = .ok s' → P s' := by
  intro fuel
  induction fuel with
  | zero =>
      intro s k s' hs h
      unfold runLoopAux at h
      simp only [Except.ok.injEq] at h
      subst h
      exact hs
  | succ n ih =>
      intro s k s' hs h
      unfold runLoopAux at h
      by_cases hc : collection_complete s = true
      · rw [if_pos hc] at h
        simp only [Except.ok.injEq] at h
        subst h
        exact hs
      · rw [if_neg hc] at h
        cases hb : loopBody s (out k) with
        | error e => rw [hb] at h; exact Except.noConfusion h
        | ok s2 =>
            rw [hb] at h
            exact ih s2 (k + 1) s' (hP s k s2 hs hb) h

lemma runLoopAux_ok_total :
    ∀ (fuel : Nat) (s : AgentState) (out : Nat → FetchOutcome) (k : Nat)
      (s' : AgentState),
      fuel = s.max_requests - s.total_requests →
      s.total_requests ≤ s.max_requests →
      runLoopAux fuel s out k = .ok s' →
      s'.total_requests = s'.max_requests ∧ s'.max_requests = s.max_requests := by
  intro fuel
  induction fuel with
  | zero =>
      intro s out k s' hf hle h
      unfold runLoopAux at h
      simp only [Except.ok.injEq] at h
      subst h
      exact ⟨by omega, rfl⟩
  | succ n ih =>
      intro s out k s' hf hle h
      unfold runLoopAux at h
      by_cases hc : collection_complete s = true
      · rw [if_pos hc] at h
        simp only [Except.ok.injEq] at h
        subst h
        simp only [collection_complete, decide_eq_true_eq] at hc
        exact ⟨by omega, rfl⟩
      · rw [if_neg hc] at h
        simp only [collection_complete, decide_eq_true_eq] at hc
        cases hb : loopBody s (out k) with
        | error e => rw [hb] at h; exact Except.noConfusion h
        | ok s2 =>
            rw [hb] at h
            obtain ⟨ht, hm⟩ := loopBody_ok_total_max hb
            have hrec := ih s2 out (k + 1) s' (by omega) (by omega) h
            exact ⟨hrec.1, hrec.2.trans hm⟩

lemma loopBody_ok_of_processable (s : AgentState) (o : FetchOutcome)
    (hp : processable o) : ∃ s', loopBody s o = .ok s' := by
  cases o with
  | success resp =>
      have hp' : (process_data resp).isSome = true := hp
      cases hq : process_data resp with
      | none => rw [hq] at hp'; exact absurd hp' (by simp)
      | some processed =>
          refine ⟨assess_performance (storeStep
            { s with total_requests := s.total_requests + 1
                     successful_requests := s.successful_requests + 1 }
            processed), ?_⟩
          unfold loopBody
          simp only [collect_batch]
          rw [hq]
  | jsonError => exact ⟨_, rfl⟩
  | httpError st => exact ⟨_, rfl⟩
  | transportError => exact ⟨_, rfl⟩

lemma runLoopAux_ok_of_processable :
    ∀ (fuel : Nat) (s : AgentState) (out : Nat → FetchOutcome) (k : Nat),
      (∀ n, processable (out n)) →
      ∃ s', runLoopAux fuel s out k = .ok s' := by
  intro fuel
  induction fuel with
  | zero => intro s out k _; exact ⟨s, rfl⟩
  | succ n ih =>
      intro s out k hp
      by_cases hc : collection_complete s = true
      · exact ⟨s, by unfold runLoopAux; rw [if_pos hc]⟩
      · obtain ⟨s2, hb⟩ := loopBody_ok_of_processable s (out k) (hp k)
        obtain ⟨s', h⟩ := ih s2 out (k + 1) hp
        exact ⟨s', by unfold runLoopAux; rw [if_neg hc, hb]; exact h⟩

lemma mapProcess_none_iff :
    ∀ l : List RawItem,
      (mapProcess l = none ↔ ∃ a ∈ l, processItem a = none) := by
  intro l
  induction l with
  | nil => simp [mapProcess]
  | cons a rest ih =>
      unfold mapProcess
      cases hp : processItem a with
      | none =>
          constructor
          · intro _; exact ⟨a, List.mem_cons_self a rest, hp⟩
          · intro _; rfl
      | some r =>
          cases hm : mapProcess rest with
          | none =>
              constructor
              · intro _
                obtain ⟨x, hx, hxn⟩ := ih.mp hm
                exact ⟨x, List.mem_cons_of_mem a hx, hxn⟩
              · intro _; rfl
          | some rs =>
              constructor
              · intro h; exact absurd h (by simp)
              · rintro ⟨x, hx, hxn⟩
                rcases List.mem_cons.mp hx with rfl | hx2
                · rw [hp] at hxn; exact absurd hxn (by simp)
                · have hr := ih.mpr ⟨x, hx2, hxn⟩
                  rw [hm] at hr
                  exact absurd hr (by simp)

lemma mapProcess_some_length :
    ∀ {l : List RawItem} {batch : List Record}, mapProcess l = some batch →
      batch.length = l.length := by
  intro l
  induction l with
  | nil =>
      intro batch h
      simp only [mapProcess, Option.some.injEq] at h
      subst h
      rfl
  | cons a rest ih =>
      intro batch h
      unfold mapProcess at h
      cases hp : processItem a with
      | none => rw [hp] at h; exact absurd h (by simp)
      | some r =>
          rw [hp] at h
          cases hm : mapProcess rest with
          | none => rw [hm] at h; exact absurd h (by simp)
          | some rs =>
              rw [hm] at h
              simp only [Option.some.injEq] at h
              subst h
              simp [ih hm]

/-! ### The claims -/

/-- C1 counterexample: a 200 response whose body fails to parse as JSON
completes its iteration having incremented `total_requests` once,
`successful_requests` once (before `response.json()` raised) and
`failed_requests` once (in the `except` handler), so after that completed
iteration `successful_requests + failed_requests = 2 ≠ 1 = total_requests`,
refuting the counter equation as stated. -/
theorem claim_C1_counterexample :
    loopBody (initState 2) .jsonError
        = .ok (⟨[], 1, 1, 1, [], 1, 2⟩ : AgentState) ∧
    (⟨[], 1, 1, 1, [], 1, 2⟩ : AgentState).successful_requests
        + (⟨[], 1, 1, 1, [], 1, 2⟩ : AgentState).failed_requests
      ≠ (⟨[], 1, 1, 1, [], 1, 2⟩ : AgentState).total_requests :=
  ⟨rfl, by decide⟩

/-- C1 amended: every fetch increments `total_requests` exactly once, and
every fetch except a 200-with-unparseable-body one increments exactly one
of `successful_requests`/`failed_requests`, so such iterations preserve
`successful_requests + failed_requests = total_requests`; a 200 response
whose body fails to parse increments both, adding two to the sum; the
equation therefore holds after every completed iteration and whole run in
which no such response occurs. -/
theorem claim_C1_amended :
    (∀ (s : AgentState) (o : FetchOutcome),
        (collect_batch s o).1.total_requests = s.total_requests + 1) ∧
    (∀ (s : AgentState) (o : FetchOutcome), o ≠ .jsonError →
        (collect_batch s o).1.successful_requests
            + (collect_batch s o).1.failed_requests
          = s.successful_requests + s.failed_requests + 1) ∧
    (∀ s : AgentState,
        (collect_batch s .jsonError).1.successful_requests
            + (collect_batch s .jsonError).1.failed_requests
          = s.successful_requests + s.failed_requests + 2) ∧
    (∀ (s : AgentState) (o : FetchOutcome) (s' : AgentState),
        o ≠ .jsonError → loopBody s o = .ok s' →
        s.successful_requests + s.failed_requests = s.total_requests →
        s'.successful_requests + s'.failed_requests = s'.total_requests) ∧
    (∀ (s : AgentState) (out : Nat → FetchOutcome) (k : Nat)
        (s' : AgentState),
        (∀ n, out n ≠ .jsonError) →
        s.successful_requests + s.failed_requests = s.total_requests →
        runLoop s out k = .ok s' →
        s'.successful_requests + s'.failed_requests = s'.total_requests) := by
  refine ⟨?_, ?_, ?_, ?_, ?_⟩
  · intro s o
    exact collect_total s o
  · intro s o ho
    exact collect_succ_failed s o ho
  · intro s
    exact collect_jsonError_succ_failed s
  · intro s o s' ho h hinv
    obtain ⟨ht, _⟩ := loopBody_ok_total_max h
    have hsf := loopBody_ok_succ_failed ho h
    omega
  · intro s out k s' hout hinv h
    unfold runLoop at h
    exact runLoopAux_preserve_stream
      (fun t => t.successful_requests + t.failed_requests = t.total_requests)
      out
      (fun t k' t' hin hb => by
        obtain ⟨ht, _⟩ := loopBody_ok_total_max hb
        have hsf := loopBody_ok_succ_failed (hout k') hb
        omega)
      _ s k s' hinv h

/-- C1 amended witness: the double increment instantiated at the initial
state, the preserved equation after one transport-failure iteration, and
after a whole one-iteration run without parse failures. -/
theorem claim_C1_amended_witness :
    ((collect_batch (initState 2) .jsonError).1.successful_requests
        + (collect_batch (initState 2) .jsonError).1.failed_requests
      = (initState 2).successful_requests + (initState 2).failed_requests
          + 2) ∧
    ((assess_performance (⟨[], 1, 0, 1, [], 1, 2⟩ : AgentState)).successful_requests
        + (assess_performance (⟨[], 1, 0, 1, [], 1, 2⟩ : AgentState)).failed_requests
      = (assess_performance (⟨[], 1, 0, 1, [], 1, 2⟩ : AgentState)).total_requests) ∧
    ((assess_performance (⟨[], 1, 0, 1, [], 1, 1⟩ : AgentState)).successful_requests
        + (assess_performance (⟨[], 1, 0, 1, [], 1, 1⟩ : AgentState)).failed_requests
      = (assess_performance (⟨[], 1, 0, 1, [], 1, 1⟩ : AgentState)).total_requests) :=
  ⟨claim_C1_amended.2.2.1 (initState 2),
   claim_C1_amended.2.2.2.1 (initState 2) .transportError
      (assess_performance ⟨[], 1, 0, 1, [], 1, 2⟩) (by decide) rfl rfl,
   claim_C1_amended.2.2.2.2 (initState 1) (fun _ => .transportError) 0
      (assess_performance ⟨[], 1, 0, 1, [], 1, 1⟩)
      (fun _ hcon => FetchOutcome.noConfusion hcon) rfl rfl⟩

/-- C2 counterexample: with the positive ceiling `max_requests = 2` and a
first fetch succeeding with a malformed payload, the run stops (via the
uncaught `KeyError` from `process_data`) with `total_requests = 1 < 2` and
never transitions to the complete outcome, refuting "it never stops with
`total_requests < max_requests`". -/
theorem claim_C2_counterexample :
    run_collection (initState 2) (some "t") (fun _ => .success badResp)
        = .crashed (⟨[], 1, 1, 0, [], 1, 2⟩ : AgentState) ∧
    (⟨[], 1, 1, 0, [], 1, 2⟩ : AgentState).total_requests
        < (⟨[], 1, 1, 0, [], 1, 2⟩ : AgentState).max_requests ∧
    RunResult.isCompleteRun
        (run_collection (initState 2) (some "t") (fun _ => .success badResp))
      = false :=
  ⟨rfl, by decide, rfl⟩

/-- C2 amended: whenever the loop exits normally it does so exactly at
`total_requests = max_requests` (started from any state with
`total_requests ≤ max_requests`), and if every successful payload in the
stream processes without raising, a run from the initial state does exit
normally with `total_requests = max_requests`; a malformed successful
payload can instead abort the loop early through an uncaught exception. -/
theorem claim_C2_amended :
    (∀ (s : AgentState) (out : Nat → FetchOutcome) (k : Nat) (s' : AgentState),
        s.total_requests ≤ s.max_requests →
        runLoop s out k = .ok s' →
        s'.total_requests = s.max_requests) ∧
    (∀ (m : Nat) (out : Nat → FetchOutcome),
        0 < m → (∀ n, processable (out n)) →
        ∃ s', runLoop (initState m) out 0 = .ok s' ∧
          s'.total_requests = m) := by
  constructor
  · intro s out k s' hle h
    unfold runLoop at h
    obtain ⟨h1, h2⟩ := runLoopAux_ok_total _ s out k s' rfl hle h
    rw [h1, h2]
  · intro m out _ hp
    obtain ⟨s', h⟩ := runLoopAux_ok_of_processable
      ((initState m).max_requests - (initState m).total_requests)
      (initState m) out 0 hp
    refine ⟨s', h, ?_⟩
    obtain ⟨h1, h2⟩ := runLoopAux_ok_total _ (initState m) out 0 s' rfl
      (Nat.zero_le _) h
    rw [h1, h2]
    rfl

/-- C2 amended witness: a one-iteration all-failures run exits normally at
the ceiling. -/
theorem claim_C2_amended_witness :
    ((assess_performance (⟨[], 1, 0, 1, [], 1, 1⟩ : AgentState)).total_requests
        = (initState 1).max_requests) ∧
    (∃ s', runLoop (initState 1) (fun _ => .transportError) 0 = .ok s' ∧
        s'.total_requests = 1) :=
  ⟨claim_C2_amended.1 (initState 1) (fun _ => .transportError) 0
      (assess_performance ⟨[], 1, 0, 1, [], 1, 1⟩) (by decide) rfl,
   claim_C2_amended.2 1 (fun _ => .transportError) (by decide)
      (fun _ => True.intro)⟩

/-- C3 counterexample: a successful payload whose single raw item has no
`name` (nor `artists` head, nor `id`) makes the transformation fail
(uncaught `KeyError` in Python, `none` here); the item is not skipped,
refuting "transforming the raw payload never errors". -/
theorem claim_C3_counterexample :
    process_data badResp = none ∧
    badItem ∈ albumsItems badResp ∧
    badItem.name = none :=
  ⟨rfl, by decide, rfl⟩

/-- C3 amended: the transformation fails exactly when some raw item of
`albums.items` is missing a decomposable sub-field; malformed items are
never skipped: a successful transformation converts every item, producing
one record per raw item. -/
theorem claim_C3_amended :
    ∀ resp : SpotifyResponse,
      (process_data resp = none ↔
        ∃ a ∈ albumsItems resp, processItem a = none) ∧
      (∀ batch : List Record, process_data resp = some batch →
        batch.length = (albumsItems resp).length) := by
  intro resp
  constructor
  · exact mapProcess_none_iff (albumsItems resp)
  · intro batch h
    exact mapProcess_some_length h

/-- C3 amended witness: the malformed payload fails; the well-formed
one-item payload produces exactly one record. -/
theorem claim_C3_amended_witness :
    process_data badResp = none ∧
    ([goodRec].length = (albumsItems goodResp).length) :=
  ⟨(claim_C3_amended badResp).1.mpr ⟨badItem, by decide, rfl⟩,
   (claim_C3_amended goodResp).2 [goodRec] rfl⟩

/-- C4 counterexample: calling the quality assessor on the initial state
(empty store) returns 0 but leaves `quality_scores` untouched: its length
grows by zero, not one, refuting "the length of quality_scores grows by
exactly one in every assessment cycle, including when the store is
empty". -/
theorem claim_C4_counterexample :
    (assess_data_quality (initState 5)).1 = 0 ∧
    (assess_data_quality (initState 5)).2.quality_scores.length
      = (initState 5).quality_scores.length :=
  ⟨rfl, rfl⟩

/-- C4 amended: when the accumulated store is empty the assessor returns 0
and appends nothing (the state is unchanged); when the store is non-empty
each call appends exactly one score. -/
theorem claim_C4_amended :
    (∀ s : AgentState, s.data_store.isEmpty = true →
        (assess_data_quality s).1 = 0 ∧ (assess_data_quality s).2 = s) ∧
    (∀ s : AgentState, s.data_store.isEmpty = false →
        (assess_data_quality s).2.quality_scores.length
          = s.quality_scores.length + 1) := by
  constructor
  · intro s h
    rw [adq_empty h]
    exact ⟨rfl, rfl⟩
  · intro s h
    rw [adq_nonempty_scores h]
    simp

/-- C4 amended witness: instantiated at the empty initial store and at a
one-record store. -/
theorem claim_C4_amended_witness :
    ((assess_data_quality (initState 5)).1 = 0 ∧
      (assess_data_quality (initState 5)).2 = initState 5) ∧
    (assess_data_quality (⟨[goodRec], 1, 1, 0, [], 1, 5⟩ : AgentState)).2.quality_scores.length
      = (⟨[goodRec], 1, 1, 0, [], 1, 5⟩ : AgentState).quality_scores.length + 1 :=
  ⟨claim_C4_amended.1 (initState 5) rfl,
   claim_C4_amended.2 ⟨[goodRec], 1, 1, 0, [], 1, 5⟩ rfl⟩

/-- C5: the delay multiplier never decreases, per iteration and across a
whole run (from any state with a non-negative multiplier, as the initial
state's 1.0 is); the speed-up branch is dead: under the invocation guard
`success_rate < 0.8`, `adjust_strategy` either leaves the multiplier or
doubles it, never multiplying by 0.8. -/
theorem claim_C5 :
    (∀ (s : AgentState) (o : FetchOutcome) (s' : AgentState),
        0 ≤ s.delay_multiplier → loopBody s o = .ok s' →
        s.delay_multiplier ≤ s'.delay_multiplier) ∧
    (∀ (s : AgentState) (out : Nat → FetchOutcome) (k : Nat) (s' : AgentState),
        0 ≤ s.delay_multiplier → runLoop s out k = .ok s' →
        s.delay_multiplier ≤ s'.delay_multiplier) ∧
    (∀ s : AgentState, get_success_rate s < Rat.divInt 4 5 →
        adjust_strategy s = s ∨
          (adjust_strategy s).delay_multiplier = s.delay_multiplier * 2) := by
  refine ⟨?_, ?_, ?_⟩
  · intro s o s' h0 h
    exact loopBody_ok_delay h0 h
  · intro s out k s' h0 h
    unfold runLoop at h
    have hM := runLoopAux_preserve
      (fun t => 0 ≤ t.delay_multiplier ∧
        s.delay_multiplier ≤ t.delay_multiplier)
      (fun t o t' ht hb => by
        have hmono := loopBody_ok_delay ht.1 hb
        exact ⟨le_trans ht.1 hmono, le_trans ht.2 hmono⟩)
      _ s out k s' ⟨h0, le_refl _⟩ h
    exact hM.2
  · intro s h
    exact adjust_under_guard h

/-- C5 witness: monotonicity after one failed-fetch iteration, and the
dead-branch disjunction at a state with success rate 1/2 (below the 0.8
guard). -/
theorem claim_C5_witness :
    ((initState 2).delay_multiplier ≤
      (assess_performance (⟨[], 1, 0, 1, [], 1, 2⟩ : AgentState)).delay_multiplier) ∧
    (adjust_strategy (⟨[], 2, 1, 1, [], 1, 5⟩ : AgentState)
        = (⟨[], 2, 1, 1, [], 1, 5⟩ : AgentState) ∨
      (adjust_strategy (⟨[], 2, 1, 1, [], 1, 5⟩ : AgentState)).delay_multiplier
        = (⟨[], 2, 1, 1, [], 1, 5⟩ : AgentState).delay_multiplier * 2) :=
  ⟨claim_C5.1 (initState 2) .transportError
      (assess_performance ⟨[], 1, 0, 1, [], 1, 2⟩) (by decide) rfl,
   claim_C5.2.2 ⟨[], 2, 1, 1, [], 1, 5⟩ (by decide)⟩

/-- C6: the quality score is 0 for an empty store; for a non-empty store it
is the count of records having both required fields divided by the store
size, and lies in [0, 1]. -/
theorem claim_C6 :
    (∀ s : AgentState, s.data_store = [] → (assess_data_quality s).1 = 0) ∧
    (∀ s : AgentState, s.data_store ≠ [] →
        (assess_data_quality s).1
          = Rat.divInt (s.data_store.filter hasRequiredFields).length
              s.data_store.length ∧
        0 ≤ (assess_data_quality s).1 ∧
        (assess_data_quality s).1 ≤ 1) := by
  constructor
  · intro s h
    rw [adq_empty (by simp [h])]
  · intro s h
    have hne : s.data_store.isEmpty = false := by
      simp [List.isEmpty_eq_false, h]
    have hfst := adq_nonempty_fst hne
    have hlen : 0 < s.data_store.length := List.length_pos.mpr h
    have hle : (s.data_store.filter hasRequiredFields).length
        ≤ s.data_store.length := s.data_store.length_filter_le _
    refine ⟨hfst, ?_, ?_⟩
    · rw [hfst, Rat.divInt_eq_div]
      positivity
    · rw [hfst, Rat.divInt_eq_div]
      rw [div_le_one (by exact_mod_cast hlen)]
      exact_mod_cast hle

/-- C6 witness: score 0 on the empty initial store; score 1/1 within
bounds on a one-record store. -/
theorem claim_C6_witness :
    ((assess_data_quality (initState 4)).1 = 0) ∧
    ((assess_data_quality (⟨[goodRec], 1, 1, 0, [], 1, 5⟩ : AgentState)).1
        = Rat.divInt
            ((⟨[goodRec], 1, 1, 0, [], 1, 5⟩ : AgentState).data_store.filter
              hasRequiredFields).length
            (⟨[goodRec], 1, 1, 0, [], 1, 5⟩ : AgentState).data_store.length ∧
      0 ≤ (assess_data_quality (⟨[goodRec], 1, 1, 0, [], 1, 5⟩ : AgentState)).1 ∧
      (assess_data_quality (⟨[goodRec], 1, 1, 0, [], 1, 5⟩ : AgentState)).1 ≤ 1) :=
  ⟨claim_C6.1 (initState 4) rfl,
   claim_C6.2 ⟨[goodRec], 1, 1, 0, [], 1, 5⟩ (by decide)⟩

/-- C7: whenever the success rate is below 0.5 the adjustment operation
doubles `delay_multiplier`; for rates in [0.5, 0.9] it changes nothing. -/
theorem claim_C7 :
    (∀ s : AgentState, get_success_rate s < Rat.divInt 1 2 →
        (adjust_strategy s).delay_multiplier = s.delay_multiplier * 2) ∧
    (∀ s : AgentState, Rat.divInt 1 2 ≤ get_success_rate s →
        get_success_rate s ≤ Rat.divInt 9 10 →
        adjust_strategy s = s) := by
  constructor
  · intro s h
    exact adjust_lt_half h
  · intro s h1 h2
    exact adjust_mid (not_lt.mpr h1) (not_lt.mpr h2)

/-- C7 witness: doubling at success rate 1/4, no change at success rate
1/2. -/
theorem claim_C7_witness :
    ((adjust_strategy (⟨[], 4, 1, 3, [], 1, 9⟩ : AgentState)).delay_multiplier
        = (⟨[], 4, 1, 3, [], 1, 9⟩ : AgentState).delay_multiplier * 2) ∧
    (adjust_strategy (⟨[], 2, 1, 1, [], 1, 9⟩ : AgentState)
        = (⟨[], 2, 1, 1, [], 1, 9⟩ : AgentState)) :=
  ⟨claim_C7.1 ⟨[], 4, 1, 3, [], 1, 9⟩ (by decide),
   claim_C7.2 ⟨[], 2, 1, 1, [], 1, 9⟩ (by decide) (by decide)⟩

/-- C8: batch validation is all-or-nothing: a batch containing any record
without a required field fails `validate_data`, so the storage step leaves
the state (in particular the store) unchanged, while the successful fetch
that produced the batch has already incremented both `total_requests` and
`successful_requests`. -/
theorem claim_C8 :
    ∀ (s : AgentState) (resp : SpotifyResponse) (batch : List Record),
      (∃ r ∈ batch, hasRequiredFields r = false) →
      validate_data batch = false ∧
      storeStep ((collect_batch s (.success resp)).1) batch
        = (collect_batch s (.success resp)).1 ∧
      (collect_batch s (.success resp)).1.data_store = s.data_store ∧
      (collect_batch s (.success resp)).1.total_requests
        = s.total_requests + 1 ∧
      (collect_batch s (.success resp)).1.successful_requests
        = s.successful_requests + 1 := by
  rintro s resp batch ⟨r, hr, hbad⟩
  have hval : validate_data batch = false := by
    unfold validate_data
    rw [List.all_eq_false]
    exact ⟨r, hr, by simp [hbad]⟩
  exact ⟨hval, storeStep_invalid _ hval, collect_store s _, collect_total s _,
    rfl⟩

/-- C8 witness: a one-record batch missing `artist` is rejected whole after
a successful fetch from the initial state. -/
theorem claim_C8_witness :
    validate_data [badRec] = false ∧
    storeStep ((collect_batch (initState 3) (.success goodResp)).1) [badRec]
      = (collect_batch (initState 3) (.success goodResp)).1 ∧
    (collect_batch (initState 3) (.success goodResp)).1.data_store
      = (initState 3).data_store ∧
    (collect_batch (initState 3) (.success goodResp)).1.total_requests
      = (initState 3).total_requests + 1 ∧
    (collect_batch (initState 3) (.success goodResp)).1.successful_requests
      = (initState 3).successful_requests + 1 :=
  claim_C8 (initState 3) goodResp [badRec] ⟨badRec, by decide, rfl⟩

/-- C9: when no token is obtained, the run aborts before the loop in a
state distinct from the complete outcome, with all counters zero, no
quality scores and an empty store. -/
theorem claim_C9 :
    ∀ (m : Nat) (out : Nat → FetchOutcome),
      run_collection (initState m) none out = .aborted (initState m) ∧
      RunResult.isCompleteRun (run_collection (initState m) none out)
        = false ∧
      (initState m).total_requests = 0 ∧
      (initState m).successful_requests = 0 ∧
      (initState m).failed_requests = 0 ∧
      (initState m).quality_scores = [] ∧
      (initState m).data_store = [] := by
  intro m out
  exact ⟨rfl, rfl, rfl, rfl, rfl, rfl, rfl⟩

/-- C9 witness: instantiated at the default ceiling 20. -/
theorem claim_C9_witness :
    run_collection (initState 20) none (fun _ => .transportError)
        = .aborted (initState 20) ∧
    RunResult.isCompleteRun
        (run_collection (initState 20) none (fun _ => .transportError))
      = false :=
  ⟨(claim_C9 20 (fun _ => .transportError)).1,
   (claim_C9 20 (fun _ => .transportError)).2.1⟩

/-- C10: every record a successful transformation produces has both
required fields, so `validate_data` accepts every processed batch; every
record in the store stays complete across a run; and on any non-empty
all-complete store the quality score is exactly 1. -/
theorem claim_C10 :
    (∀ (resp : SpotifyResponse) (batch : List Record),
        process_data resp = some batch →
        (∀ r ∈ batch, hasRequiredFields r = true) ∧
        validate_data batch = true) ∧
    (∀ (s : AgentState) (out : Nat → FetchOutcome) (k : Nat)
        (s' : AgentState),
        (∀ r ∈ s.data_store, hasRequiredFields r = true) →
        runLoop s out k = .ok s' →
        ∀ r ∈ s'.data_store, hasRequiredFields r = true) ∧
    (∀ s : AgentState, s.data_store ≠ [] →
        (∀ r ∈ s.data_store, hasRequiredFields r = true) →
        (assess_data_quality s).1 = 1) := by
  refine ⟨?_, ?_, ?_⟩
  · intro resp batch h
    have h' : mapProcess (albumsItems resp) = some batch := h
    exact ⟨mapProcess_complete h', process_data_valid h⟩
  · intro s out k s' hinv h
    unfold runLoop at h
    exact runLoopAux_preserve
      (fun t => ∀ r ∈ t.data_store, hasRequiredFields r = true)
      (fun t o t' ht hb => loopBody_ok_store_complete ht hb)
      _ s out k s' hinv h
  · intro s hne hall
    have hemp : s.data_store.isEmpty = false := by
      simp [List.isEmpty_eq_false, hne]
    rw [adq_nonempty_fst hemp, List.filter_eq_self.mpr hall,
      Rat.divInt_eq_div]
    have hlen : 0 < s.data_store.length := List.length_pos.mpr hne
    exact div_self (by exact_mod_cast hlen.ne')

/-- C10 witness: the processed one-record batch validates; the record
stored by a one-iteration successful run is complete; the score over a
one-complete-record store is 1. -/
theorem claim_C10_witness :
    validate_data [goodRec] = true ∧
    hasRequiredFields goodRec = true ∧
    (assess_data_quality (⟨[goodRec], 1, 1, 0, [], 1, 5⟩ : AgentState)).1
      = 1 :=
  ⟨(claim_C10.1 goodResp [goodRec] rfl).2,
   claim_C10.2.1 (initState 1) (fun _ => .success goodResp) 0
      (assess_performance (storeStep ⟨[], 1, 1, 0, [], 1, 1⟩ [goodRec]))
      (by decide) rfl goodRec (by decide),
   claim_C10.2.2 ⟨[goodRec], 1, 1, 0, [], 1, 5⟩ (by decide) (by decide)⟩
